import Mathlib

/-!
Verification development for the PRK triad (nstream) and stencil benchmarks
(src/Cxx11/nstream-dpct.cc, src/Cxx11/stencil-dpcpp.cc, src/Cxx11/stencil_vector.hpp).

Doubles are modelled as exact rationals (ℚ); decimal literals from the source
denote their exact decimal values.  Grids are modelled as total functions
ℤ → ℤ → ℚ; the flat row-major array `a[i*n+j]` of the source is the value at
row i, column j.
-/

namespace PRK

/-- A 2-D grid of values, row index then column index. -/
abbrev Grid : Type := ℤ → ℤ → ℚ

/-! ### Stencil weight tables

Each source line `+in[(i+di)*n+(j+dj)] * w` of a stencil body in
src/Cxx11/stencil_vector.hpp becomes the triple `(di, dj, w)`, in source order.
-/

/-- Weight table of `star1` (stencil_vector.hpp lines 7-10). -/
def star1Terms : List (ℤ × ℤ × ℚ) :=
  [ (0, -1, -0.5), (-1, 0, -0.5), (1, 0, 0.5), (0, 1, 0.5) ]

/-- Weight table of `star2` (stencil_vector.hpp lines 23-30). -/
def star2Terms : List (ℤ × ℤ × ℚ) :=
  [ (0, -2, -0.125), (0, -1, -0.25), (-2, 0, -0.125), (-1, 0, -0.25),
    (1, 0, 0.25), (2, 0, 0.125), (0, 1, 0.25), (0, 2, 0.125) ]

/-- Weight table of `star3` (stencil_vector.hpp lines 43-54). -/
def star3Terms : List (ℤ × ℤ × ℚ) :=
  [ (0, -3, -0.0555555555556), (0, -2, -0.0833333333333), (0, -1, -0.166666666667),
    (-3, 0, -0.0555555555556), (-2, 0, -0.0833333333333), (-1, 0, -0.166666666667),
    (1, 0, 0.166666666667), (2, 0, 0.0833333333333), (3, 0, 0.0555555555556),
    (0, 1, 0.166666666667), (0, 2, 0.0833333333333), (0, 3, 0.0555555555556) ]

/-- Weight table of `star4` (stencil_vector.hpp lines 67-82). -/
def star4Terms : List (ℤ × ℤ × ℚ) :=
  [ (0, -4, -0.03125), (0, -3, -0.0416666666667), (0, -2, -0.0625), (0, -1, -0.125),
    (-4, 0, -0.03125), (-3, 0, -0.0416666666667), (-2, 0, -0.0625), (-1, 0, -0.125),
    (1, 0, 0.125), (2, 0, 0.0625), (3, 0, 0.0416666666667), (4, 0, 0.03125),
    (0, 1, 0.125), (0, 2, 0.0625), (0, 3, 0.0416666666667), (0, 4, 0.03125) ]

/-- Weight table of `star5` (stencil_vector.hpp lines 95-114). -/
def star5Terms : List (ℤ × ℤ × ℚ) :=
  [ (0, -5, -0.02), (0, -4, -0.025), (0, -3, -0.0333333333333), (0, -2, -0.05),
    (0, -1, -0.1),
    (-5, 0, -0.02), (-4, 0, -0.025), (-3, 0, -0.0333333333333), (-2, 0, -0.05),
    (-1, 0, -0.1),
    (1, 0, 0.1), (2, 0, 0.05), (3, 0, 0.0333333333333), (4, 0, 0.025), (5, 0, 0.02),
    (0, 1, 0.1), (0, 2, 0.05), (0, 3, 0.0333333333333), (0, 4, 0.025), (0, 5, 0.02) ]

/-- Weight table of `grid1` (stencil_vector.hpp lines 127-132). -/
def grid1Terms : List (ℤ × ℤ × ℚ) :=
  [ (-1, -1, -0.25), (0, -1, -0.25), (-1, 0, -0.25), (1, 0, 0.25), (0, 1, 0.25), (1, 1, 0.25) ]

/-- Weight table of `grid2` (stencil_vector.hpp lines 146-165). -/
def grid2Terms : List (ℤ × ℤ × ℚ) :=
  [ (-2, -2, -0.0625), (-1, -2, -0.0208333333333), (0, -2, -0.0208333333333), (1, -2,
    -0.0208333333333), (-2, -1, -0.0208333333333), (-1, -1, -0.125), (0, -1, -0.125), (2, -1,
    0.0208333333333), (-2, 0, -0.0208333333333), (-1, 0, -0.125), (1, 0, 0.125), (2, 0,
    0.0208333333333), (-2, 1, -0.0208333333333), (0, 1, 0.125), (1, 1, 0.125), (2, 1,
    0.0208333333333), (-1, 2, 0.0208333333333), (0, 2, 0.0208333333333), (1, 2,
    0.0208333333333), (2, 2, 0.0625) ]

/-- Weight table of `grid3` (stencil_vector.hpp lines 179-220). -/
def grid3Terms : List (ℤ × ℤ × ℚ) :=
  [ (-3, -3, -0.0277777777778), (-2, -3, -0.00555555555556), (-1, -3, -0.00555555555556), (0,
    -3, -0.00555555555556), (1, -3, -0.00555555555556), (2, -3, -0.00555555555556), (-3, -2,
    -0.00555555555556), (-2, -2, -0.0416666666667), (-1, -2, -0.0138888888889), (0, -2,
    -0.0138888888889), (1, -2, -0.0138888888889), (3, -2, 0.00555555555556), (-3, -1,
    -0.00555555555556), (-2, -1, -0.0138888888889), (-1, -1, -0.0833333333333), (0, -1,
    -0.0833333333333), (2, -1, 0.0138888888889), (3, -1, 0.00555555555556), (-3, 0,
    -0.00555555555556), (-2, 0, -0.0138888888889), (-1, 0, -0.0833333333333), (1, 0,
    0.0833333333333), (2, 0, 0.0138888888889), (3, 0, 0.00555555555556), (-3, 1,
    -0.00555555555556), (-2, 1, -0.0138888888889), (0, 1, 0.0833333333333), (1, 1,
    0.0833333333333), (2, 1, 0.0138888888889), (3, 1, 0.00555555555556), (-3, 2,
    -0.00555555555556), (-1, 2, 0.0138888888889), (0, 2, 0.0138888888889), (1, 2,
    0.0138888888889), (2, 2, 0.0416666666667), (3, 2, 0.00555555555556), (-2, 3,
    0.00555555555556), (-1, 3, 0.00555555555556), (0, 3, 0.00555555555556), (1, 3,
    0.00555555555556), (2, 3, 0.00555555555556), (3, 3, 0.0277777777778) ]

/-- Weight table of `grid4` (stencil_vector.hpp lines 234-305). -/
def grid4Terms : List (ℤ × ℤ × ℚ) :=
  [ (-4, -4, -0.015625), (-3, -4, -0.00223214285714), (-2, -4, -0.00223214285714), (-1, -4,
    -0.00223214285714), (0, -4, -0.00223214285714), (1, -4, -0.00223214285714), (2, -4,
    -0.00223214285714), (3, -4, -0.00223214285714), (-4, -3, -0.00223214285714), (-3, -3,
    -0.0208333333333), (-2, -3, -0.00416666666667), (-1, -3, -0.00416666666667), (0, -3,
    -0.00416666666667), (1, -3, -0.00416666666667), (2, -3, -0.00416666666667), (4, -3,
    0.00223214285714), (-4, -2, -0.00223214285714), (-3, -2, -0.00416666666667), (-2, -2,
    -0.03125), (-1, -2, -0.0104166666667), (0, -2, -0.0104166666667), (1, -2,
    -0.0104166666667), (3, -2, 0.00416666666667), (4, -2, 0.00223214285714), (-4, -1,
    -0.00223214285714), (-3, -1, -0.00416666666667), (-2, -1, -0.0104166666667), (-1, -1,
    -0.0625), (0, -1, -0.0625), (2, -1, 0.0104166666667), (3, -1, 0.00416666666667), (4, -1,
    0.00223214285714), (-4, 0, -0.00223214285714), (-3, 0, -0.00416666666667), (-2, 0,
    -0.0104166666667), (-1, 0, -0.0625), (1, 0, 0.0625), (2, 0, 0.0104166666667), (3, 0,
    0.00416666666667), (4, 0, 0.00223214285714), (-4, 1, -0.00223214285714), (-3, 1,
    -0.00416666666667), (-2, 1, -0.0104166666667), (0, 1, 0.0625), (1, 1, 0.0625), (2, 1,
    0.0104166666667), (3, 1, 0.00416666666667), (4, 1, 0.00223214285714), (-4, 2,
    -0.00223214285714), (-3, 2, -0.00416666666667), (-1, 2, 0.0104166666667), (0, 2,
    0.0104166666667), (1, 2, 0.0104166666667), (2, 2, 0.03125), (3, 2, 0.00416666666667), (4,
    2, 0.00223214285714), (-4, 3, -0.00223214285714), (-2, 3, 0.00416666666667), (-1, 3,
    0.00416666666667), (0, 3, 0.00416666666667), (1, 3, 0.00416666666667), (2, 3,
    0.00416666666667), (3, 3, 0.0208333333333), (4, 3, 0.00223214285714), (-3, 4,
    0.00223214285714), (-2, 4, 0.00223214285714), (-1, 4, 0.00223214285714), (0, 4,
    0.00223214285714), (1, 4, 0.00223214285714), (2, 4, 0.00223214285714), (3, 4,
    0.00223214285714), (4, 4, 0.015625) ]

/-- Weight table of `grid5` (stencil_vector.hpp lines 319-428). -/
def grid5Terms : List (ℤ × ℤ × ℚ) :=
  [ (-5, -5, -0.01), (-4, -5, -0.00111111111111), (-3, -5, -0.00111111111111), (-2, -5,
    -0.00111111111111), (-1, -5, -0.00111111111111), (0, -5, -0.00111111111111), (1, -5,
    -0.00111111111111), (2, -5, -0.00111111111111), (3, -5, -0.00111111111111), (4, -5,
    -0.00111111111111), (-5, -4, -0.00111111111111), (-4, -4, -0.0125), (-3, -4,
    -0.00178571428571), (-2, -4, -0.00178571428571), (-1, -4, -0.00178571428571), (0, -4,
    -0.00178571428571), (1, -4, -0.00178571428571), (2, -4, -0.00178571428571), (3, -4,
    -0.00178571428571), (5, -4, 0.00111111111111), (-5, -3, -0.00111111111111), (-4, -3,
    -0.00178571428571), (-3, -3, -0.0166666666667), (-2, -3, -0.00333333333333), (-1, -3,
    -0.00333333333333), (0, -3, -0.00333333333333), (1, -3, -0.00333333333333), (2, -3,
    -0.00333333333333), (4, -3, 0.00178571428571), (5, -3, 0.00111111111111), (-5, -2,
    -0.00111111111111), (-4, -2, -0.00178571428571), (-3, -2, -0.00333333333333), (-2, -2,
    -0.025), (-1, -2, -0.00833333333333), (0, -2, -0.00833333333333), (1, -2,
    -0.00833333333333), (3, -2, 0.00333333333333), (4, -2, 0.00178571428571), (5, -2,
    0.00111111111111), (-5, -1, -0.00111111111111), (-4, -1, -0.00178571428571), (-3, -1,
    -0.00333333333333), (-2, -1, -0.00833333333333), (-1, -1, -0.05), (0, -1, -0.05), (2, -1,
    0.00833333333333), (3, -1, 0.00333333333333), (4, -1, 0.00178571428571), (5, -1,
    0.00111111111111), (-5, 0, -0.00111111111111), (-4, 0, -0.00178571428571), (-3, 0,
    -0.00333333333333), (-2, 0, -0.00833333333333), (-1, 0, -0.05), (1, 0, 0.05), (2, 0,
    0.00833333333333), (3, 0, 0.00333333333333), (4, 0, 0.00178571428571), (5, 0,
    0.00111111111111), (-5, 1, -0.00111111111111), (-4, 1, -0.00178571428571), (-3, 1,
    -0.00333333333333), (-2, 1, -0.00833333333333), (0, 1, 0.05), (1, 1, 0.05), (2, 1,
    0.00833333333333), (3, 1, 0.00333333333333), (4, 1, 0.00178571428571), (5, 1,
    0.00111111111111), (-5, 2, -0.00111111111111), (-4, 2, -0.00178571428571), (-3, 2,
    -0.00333333333333), (-1, 2, 0.00833333333333), (0, 2, 0.00833333333333), (1, 2,
    0.00833333333333), (2, 2, 0.025), (3, 2, 0.00333333333333), (4, 2, 0.00178571428571), (5,
    2, 0.00111111111111), (-5, 3, -0.00111111111111), (-4, 3, -0.00178571428571), (-2, 3,
    0.00333333333333), (-1, 3, 0.00333333333333), (0, 3, 0.00333333333333), (1, 3,
    0.00333333333333), (2, 3, 0.00333333333333), (3, 3, 0.0166666666667), (4, 3,
    0.00178571428571), (5, 3, 0.00111111111111), (-5, 4, -0.00111111111111), (-3, 4,
    0.00178571428571), (-2, 4, 0.00178571428571), (-1, 4, 0.00178571428571), (0, 4,
    0.00178571428571), (1, 4, 0.00178571428571), (2, 4, 0.00178571428571), (3, 4,
    0.00178571428571), (4, 4, 0.0125), (5, 4, 0.00111111111111), (-4, 5, 0.00111111111111),
    (-3, 5, 0.00111111111111), (-2, 5, 0.00111111111111), (-1, 5, 0.00111111111111), (0, 5,
    0.00111111111111), (1, 5, 0.00111111111111), (2, 5, 0.00111111111111), (3, 5,
    0.00111111111111), (4, 5, 0.00111111111111), (5, 5, 0.01) ]

/-- The star table for a given radius; radii outside 1..5 have no table
(the driver dispatches those to the `nothing` handler). -/
def starTerms : ℕ → List (ℤ × ℤ × ℚ)
  | 1 => star1Terms
  | 2 => star2Terms
  | 3 => star3Terms
  | 4 => star4Terms
  | 5 => star5Terms
  | _ => []

/-- The box ("grid") table for a given radius. -/
def gridTerms : ℕ → List (ℤ × ℤ × ℚ)
  | 1 => grid1Terms
  | 2 => grid2Terms
  | 3 => grid3Terms
  | 4 => grid4Terms
  | 5 => grid5Terms
  | _ => []

/-- The weighted neighbor sum a stencil body adds into `out[i*n+j]`:
the sum over the table of `in[(i+di)*n+(j+dj)] * w`. -/
def applyTerms (ts : List (ℤ × ℤ × ℚ)) (inG : Grid) (i j : ℤ) : ℚ :=
  (ts.map (fun t => inG (i + t.1) (j + t.2.1) * t.2.2)).sum

/-- Sum of all coefficients of a weight table. -/
def weightSum (ts : List (ℤ × ℤ × ℚ)) : ℚ :=
  (ts.map (fun t => t.2.2)).sum

/-- Sum of `(di + dj) * w` over a weight table: the response of the
stencil to the unit-slope input `in[i][j] = i + j`. -/
def slopeResponse (ts : List (ℤ × ℤ × ℚ)) : ℚ :=
  (ts.map (fun t => ((t.1 : ℚ) + (t.2.1 : ℚ)) * t.2.2)).sum

/-- The coefficient a table applies to the neighbor at offset `(di, dj)`
(sum of matching entries; each offset occurs at most once in the tables). -/
def weightAt (ts : List (ℤ × ℤ × ℚ)) (di dj : ℤ) : ℚ :=
  ((ts.filter (fun t => decide (t.1 = di ∧ t.2.1 = dj))).map (fun t => t.2.2)).sum

/-- The interior of an `n×n` grid with respect to stencil radius `r`: the
loop bounds `r ≤ i, j < n-r` of the starN/gridN loop nests. -/
def interiorCell (r : ℕ) (n i j : ℤ) : Prop :=
  (r : ℤ) ≤ i ∧ i < n - r ∧ (r : ℤ) ≤ j ∧ j < n - r

instance (r : ℕ) (n i j : ℤ) : Decidable (interiorCell r n i j) := by
  unfold interiorCell; infer_instance

/-- One invocation of a stencil body with radius `r` and table `ts` on an
`n×n` grid.  The loop nest of each starN/gridN function in
stencil_vector.hpp runs `i` and `j` over the interior `[r, n-r)` (the tiling
by `it, jt, t` enumerates each interior cell exactly once for any tile size
`t ≥ 1`), and does `out[i*n+j] += Σ in[(i+di)*n+(j+dj)] * w`. -/
def stencilStep (r : ℕ) (ts : List (ℤ × ℤ × ℚ)) (n : ℤ) (inG outG : Grid) : Grid :=
  fun i j =>
    if interiorCell r n i j then
      outG i j + applyTerms ts inG i j
    else
      outG i j

/-- `star1` of stencil_vector.hpp as a grid transformer. -/
def star1 (n : ℤ) (inG outG : Grid) : Grid := stencilStep 1 star1Terms n inG outG

/-- `star2` of stencil_vector.hpp as a grid transformer. -/
def star2 (n : ℤ) (inG outG : Grid) : Grid := stencilStep 2 star2Terms n inG outG

/-- `star3` of stencil_vector.hpp as a grid transformer. -/
def star3 (n : ℤ) (inG outG : Grid) : Grid := stencilStep 3 star3Terms n inG outG

/-- `star4` of stencil_vector.hpp as a grid transformer. -/
def star4 (n : ℤ) (inG outG : Grid) : Grid := stencilStep 4 star4Terms n inG outG

/-- `star5` of stencil_vector.hpp as a grid transformer. -/
def star5 (n : ℤ) (inG outG : Grid) : Grid := stencilStep 5 star5Terms n inG outG

/-- `grid1` of stencil_vector.hpp as a grid transformer. -/
def grid1 (n : ℤ) (inG outG : Grid) : Grid := stencilStep 1 grid1Terms n inG outG

/-- `grid2` of stencil_vector.hpp as a grid transformer. -/
def grid2 (n : ℤ) (inG outG : Grid) : Grid := stencilStep 2 grid2Terms n inG outG

/-- `grid3` of stencil_vector.hpp as a grid transformer. -/
def grid3 (n : ℤ) (inG outG : Grid) : Grid := stencilStep 3 grid3Terms n inG outG

/-- `grid4` of stencil_vector.hpp as a grid transformer. -/
def grid4 (n : ℤ) (inG outG : Grid) : Grid := stencilStep 4 grid4Terms n inG outG

/-- `grid5` of stencil_vector.hpp as a grid transformer. -/
def grid5 (n : ℤ) (inG outG : Grid) : Grid := stencilStep 5 grid5Terms n inG outG

/-! ### Stencil driver (src/Cxx11/stencil-dpcpp.cc) -/

/-- Shape argument handling, stencil-dpcpp.cc lines 111-115:
`star = (stencil == grid) ? false : true` with `grid = std::string("grid")`.
Returns the `star` flag. -/
def parseStar (s : String) : Bool := if s = "grid" then false else true

/-- The kernel the driver dispatch selects: a star kernel of some radius, or
the `nothing` fallback handler. -/
inductive StencilKernel : Type
  | star : ℕ → StencilKernel
  | nothing : StencilKernel

/-- Driver dispatch, stencil-dpcpp.cc lines 138-158: `stencil` starts as
`nothing`; a star shape with radius 1..5 selects starN; the grid/box branch
is compiled out (`#if 0`), so every box request keeps the `nothing`
handler, as does any star radius outside 1..5. -/
def selectStencil (star : Bool) (radius : ℕ) : StencilKernel :=
  if star then
    if radius = 1 then .star 1
    else if radius = 2 then .star 2
    else if radius = 3 then .star 3
    else if radius = 4 then .star 4
    else if radius = 5 then .star 5
    else .nothing
  else .nothing

/-- Outcome of invoking the selected kernel once: either a new output grid,
or a fatal abort after printing a diagnostic. -/
inductive StencilOutcome : Type
  | ran : Grid → StencilOutcome
  | aborted : String → StencilOutcome

/-- The diagnostic printed by the `nothing` handler
(stencil-dpcpp.cc lines 61-68) before it aborts. -/
def missingStencilMsg : String :=
  "You are trying to use a stencil that does not exist."

/-- Run the selected kernel once.  A star kernel applies its weight table to
the interior; the `nothing` handler (stencil-dpcpp.cc lines 61-68) prints
the diagnostic and calls `prk::Abort()`, modelled as a fatal `aborted`
outcome (prk_util.h is not under src/; the spec calls this a fatal abort). -/
def runSelected (k : StencilKernel) (n : ℤ) (inG outG : Grid) : StencilOutcome :=
  match k with
  | .star r => .ran (stencilStep r (starTerms r) n inG outG)
  | .nothing => .aborted missingStencilMsg

/-- Initial input grid of the driver (stencil-dpcpp.cc line 182):
`d_in[i*n+j] = i+j`. -/
def stencilInit : Grid := fun i j => (i : ℚ) + (j : ℚ)

/-- One body of the driver loop (stencil-dpcpp.cc lines 188-205): apply the
stencil to the current input (accumulating into the output), then add the
constant 1 to every input cell. -/
def stencilBody (r : ℕ) (ts : List (ℤ × ℤ × ℚ)) (n : ℤ) (s : Grid × Grid) : Grid × Grid :=
  (fun i j => s.1 i j + 1, stencilStep r ts n s.1 s.2)

/-- The driver loop `for (iter = 0; iter <= iterations; iter++)`
(stencil-dpcpp.cc line 188): `iterations+1` bodies on the initial grids. -/
def stencilRun (r : ℕ) (ts : List (ℤ × ℤ × ℚ)) (n : ℕ) (iterations : ℕ) : Grid × Grid :=
  (stencilBody r ts (n : ℤ))^[iterations + 1] (stencilInit, fun _ _ => 0)

/-- `active_points = (n-2*radius)^2` (stencil-dpcpp.cc line 221). -/
def activePoints (r n : ℕ) : ℕ := (n - 2 * r) * (n - 2 * r)

/-- The verifier's observed norm (stencil-dpcpp.cc lines 222-228): sum of
absolute values of `out` over the interior, divided by `active_points`. -/
def stencilNorm (r n : ℕ) (outG : Grid) : ℚ :=
  (∑ i ∈ Finset.Ico (r : ℤ) ((n : ℤ) - r), ∑ j ∈ Finset.Ico (r : ℤ) ((n : ℤ) - r),
    |outG i j|) / (activePoints r n : ℚ)

/-- The verifier's reference norm (stencil-dpcpp.cc line 232):
`2.*(iterations+1.)`. -/
def referenceNorm (iterations : ℕ) : ℚ := 2 * ((iterations : ℚ) + 1)

/-- Exit status of the star-shaped stencil run (stencil-dpcpp.cc lines
231-255): 1 when `|norm - reference_norm| > 1e-8`, else 0. -/
def stencilExit (r n iterations : ℕ) : ℕ :=
  if |stencilNorm r n (stencilRun r (starTerms r) n iterations).2 -
        referenceNorm iterations| > 1e-8 then 1 else 0

/-- Driver state instrumented with counters: how many stencil kernel
applications and how many +1 input perturbations have run. -/
structure StencilState : Type where
  inG : Grid
  outG : Grid
  kernelCalls : ℕ
  perturbCalls : ℕ

/-- Counted loop body: exactly one kernel application (reading the current
input) followed by exactly one +1 perturbation of every input cell. -/
def stencilBodyCounted (r : ℕ) (ts : List (ℤ × ℤ × ℚ)) (n : ℤ)
    (s : StencilState) : StencilState :=
  { inG := fun i j => s.inG i j + 1
    outG := stencilStep r ts n s.inG s.outG
    kernelCalls := s.kernelCalls + 1
    perturbCalls := s.perturbCalls + 1 }

/-- The counted driver loop. -/
def stencilRunCounted (r : ℕ) (ts : List (ℤ × ℤ × ℚ)) (n : ℕ)
    (iterations : ℕ) : StencilState :=
  (stencilBodyCounted r ts (n : ℤ))^[iterations + 1]
    ⟨stencilInit, fun _ _ => 0, 0, 0⟩

/-- Clock model for the timed loop: body `k` (k = 0..iterations) takes
`dur k` seconds, so the wall clock read at the top of body `k` is
`∑_{j<k} dur j`.  `stencil_time` is snapshotted at the top of body 1
(stencil-dpcpp.cc line 190, `if (iter==1)`) and subtracted from the reading
taken after the loop (line 206). -/
def stencilElapsed (dur : ℕ → ℚ) (iterations : ℕ) : ℚ :=
  (∑ j ∈ Finset.range (iterations + 1), dur j) - (∑ j ∈ Finset.range 1, dur j)

/-- `avgtime = stencil_time/iterations` (stencil-dpcpp.cc line 250). -/
def stencilAvgTime (dur : ℕ → ℚ) (iterations : ℕ) : ℚ :=
  stencilElapsed dur iterations / (iterations : ℚ)

/-! ### Triad driver (src/Cxx11/nstream-dpct.cc) -/

/-- The `nstream` kernel body (nstream-dpct.cc lines 69-76) for one
computation unit with flat id `g`: if `g < n` then
`A[g] += B[g] + scalar * C[g]`, else no operation. -/
def nstreamUnit (n : ℕ) (scalar : ℚ) (B C : ℕ → ℚ) (g : ℕ) (A : ℕ → ℚ) : ℕ → ℚ :=
  if g < n then Function.update A g (A g + (B g + scalar * C g)) else A

/-- The `nstream2` kernel body (nstream-dpct.cc lines 78-88) for one unit:
starting at its flat id, process indices `i, i+G, i+2G, ...` below `n`,
where `G` (the grid stride) is the total number of launched units.
`hG` records that the stride is positive (the launch always has `G ≥ 256`);
with a zero stride the source loop would not terminate. -/
def strideLoop (n G : ℕ) (hG : 0 < G) (scalar : ℚ) (B C : ℕ → ℚ)
    (i : ℕ) (A : ℕ → ℚ) : ℕ → ℚ :=
  if h : i < n then
    strideLoop n G hG scalar B C (i + G)
      (Function.update A i (A i + (B i + scalar * C i)))
  else A
termination_by n - i
decreasing_by omega

/-- Run the launched units in id order.  Every unit writes only elements
congruent to its own id (and each element is written by exactly one unit),
so this sequential fold models the data-parallel launch. -/
def runUnits (step : ℕ → (ℕ → ℚ) → (ℕ → ℚ)) : List ℕ → (ℕ → ℚ) → (ℕ → ℚ)
  | [], A => A
  | g :: gs, A => runUnits step gs (step g A)

/-- Modelled from the spec: `prk::divceil` (prk_util.h, not under src/) is
the overflow-safe ceiling division used by the launch configuration
(nstream-dpct.cc lines 128-130): `blockSize = 256`,
`dimGrid = divceil(length, blockSize)`, so the total number of launched
units is `divceil(length, 256) * 256`. -/
def launchUnits (length : ℕ) : ℕ := ((length + 256 - 1) / 256) * 256

/-- One invocation of the direct-mapping `nstream` kernel over the whole
launch. -/
def nstreamLaunch (n : ℕ) (scalar : ℚ) (B C : ℕ → ℚ) (A : ℕ → ℚ) : ℕ → ℚ :=
  runUnits (nstreamUnit n scalar B C) (List.range (launchUnits n)) A

/-- One invocation of the grid-strided `nstream2` kernel over the whole
launch; the stride equals the number of launched units. -/
def nstream2Launch (n : ℕ) (h : 0 < launchUnits n) (scalar : ℚ)
    (B C : ℕ → ℚ) (A : ℕ → ℚ) : ℕ → ℚ :=
  runUnits (fun g => strideLoop n (launchUnits n) h scalar B C g)
    (List.range (launchUnits n)) A

/-- The triad driver compute loop (nstream-dpct.cc lines 144-185) with the
default direct mapping: `A` starts at 0, `B = C = 2`, `scalar = 3`, and the
kernel runs `iterations+1` times (`for (iter = 0; iter <= iterations; ...)`). -/
def nstreamRunA (iterations length : ℕ) : ℕ → ℚ :=
  (fun A => nstreamLaunch length 3 (fun _ => 2) (fun _ => 2) A)^[iterations + 1]
    (fun _ => 0)

/-- The verifier's expected checksum (nstream-dpct.cc lines 202-209):
`ar` accumulates `br + scalar*cr` once per `i = 0..iterations`, then is
scaled by `length`. -/
def nstreamAr (iterations length : ℕ) : ℚ :=
  ((List.range (iterations + 1)).foldl (fun ar _ => ar + (2 + 3 * 2)) 0) * (length : ℚ)

/-- The verifier's observed checksum (nstream-dpct.cc lines 211-214): sum of
absolute values of the final `A`. -/
def nstreamAsum (iterations length : ℕ) : ℚ :=
  ∑ i ∈ Finset.range length, |nstreamRunA iterations length i|

/-- Exit status of the validated triad run (nstream-dpct.cc lines 218-234):
1 when `|ar - asum| / asum > 1e-8`, else 0. -/
def nstreamExit (iterations length : ℕ) : ℕ :=
  if |nstreamAr iterations length - nstreamAsum iterations length| /
      nstreamAsum iterations length > 1e-8 then 1 else 0

/-- Argument handling for `grid_stride` (nstream-dpct.cc line 117):
`grid_stride = (argc>3) ? prk::parse_boolean(std::string(argv[4])) : false`.
`argv` is the provided argument list (so `argc = argv.length`), `pb` models
`prk::parse_boolean` (prk_util.h, not under src/), and an index at or past
`argv.length` is past the provided argument list, yielding `none`. -/
def readGridStride (pb : String → Bool) (argv : List String) : Option Bool :=
  if argv.length > 3 then (argv.get? 4).map pb else some false

/-! ### Helper lemmas: stencil tables -/

theorem applyTerms_const (ts : List (ℤ × ℤ × ℚ)) (c : ℚ) (i j : ℤ) :
    applyTerms ts (fun _ _ => c) i j = c * weightSum ts := by
  induction ts with
  | nil => simp [applyTerms, weightSum]
  | cons t ts ih =>
      simp only [applyTerms, weightSum, List.map_cons, List.sum_cons] at ih ⊢
      rw [ih]
      ring

theorem applyTerms_linear (ts : List (ℤ × ℤ × ℚ)) (c : ℚ) (i j : ℤ) :
    applyTerms ts (fun a b => (a : ℚ) + (b : ℚ) + c) i j
      = ((i : ℚ) + (j : ℚ) + c) * weightSum ts + slopeResponse ts := by
  induction ts with
  | nil => simp [applyTerms, weightSum, slopeResponse]
  | cons t ts ih =>
      simp only [applyTerms, weightSum, slopeResponse, List.map_cons, List.sum_cons] at ih ⊢
      rw [ih]
      push_cast
      ring

theorem weightSum_star1 : weightSum star1Terms = 0 := by norm_num [weightSum, star1Terms]

theorem weightSum_star2 : weightSum star2Terms = 0 := by norm_num [weightSum, star2Terms]

theorem weightSum_star3 : weightSum star3Terms = 0 := by norm_num [weightSum, star3Terms]

theorem weightSum_star4 : weightSum star4Terms = 0 := by norm_num [weightSum, star4Terms]

theorem weightSum_star5 : weightSum star5Terms = 0 := by norm_num [weightSum, star5Terms]

theorem weightSum_grid1 : weightSum grid1Terms = 0 := by norm_num [weightSum, grid1Terms]

theorem weightSum_grid2 : weightSum grid2Terms = 0 := by norm_num [weightSum, grid2Terms]

theorem weightSum_grid3 : weightSum grid3Terms = 0 := by norm_num [weightSum, grid3Terms]

theorem weightSum_grid4 : weightSum grid4Terms = 0 := by norm_num [weightSum, grid4Terms]

theorem weightSum_grid5 : weightSum grid5Terms = 0 := by norm_num [weightSum, grid5Terms]

theorem slopeResponse_star1 : slopeResponse star1Terms = 2 := by
  norm_num [slopeResponse, star1Terms]

theorem slopeResponse_star2 : slopeResponse star2Terms = 2 := by
  norm_num [slopeResponse, star2Terms]

theorem slopeResponse_star3 : slopeResponse star3Terms = 2 + 16 / 10 ^ 13 := by
  norm_num [slopeResponse, star3Terms]

theorem slopeResponse_star4 : slopeResponse star4Terms = 2 + 4 / 10 ^ 13 := by
  norm_num [slopeResponse, star4Terms]

theorem slopeResponse_star5 : slopeResponse star5Terms = 2 - 4 / 10 ^ 13 := by
  norm_num [slopeResponse, star5Terms]

/-! ### Helper lemmas: the stencil driver loop in closed form -/

theorem stencilBody_iterate (r : ℕ) (ts : List (ℤ × ℤ × ℚ)) (n : ℤ)
    (hw : weightSum ts = 0) (k : ℕ) :
    (stencilBody r ts n)^[k] (stencilInit, fun _ _ => 0)
      = (fun (i j : ℤ) => (i : ℚ) + (j : ℚ) + (k : ℚ),
         fun (i j : ℤ) =>
           if interiorCell r n i j then (k : ℚ) * slopeResponse ts else 0) := by
  induction k with
  | zero =>
      refine Prod.ext ?_ ?_
      · funext i j; simp [stencilInit]
      · funext i j; simp
  | succ k ih =>
      rw [Function.iterate_succ_apply', ih]
      refine Prod.ext ?_ ?_
      · funext i j
        show ((i : ℚ) + (j : ℚ) + (k : ℚ)) + 1 = (i : ℚ) + (j : ℚ) + ((k : ℕ) + 1 : ℕ)
        push_cast
        ring
      · funext i j
        show stencilStep r ts n _ _ i j = _
        unfold stencilStep
        dsimp only
        by_cases hij : interiorCell r n i j
        · rw [if_pos hij, if_pos hij, if_pos hij,
            applyTerms_linear ts (k : ℚ) i j, hw]
          push_cast
          ring
        · rw [if_neg hij, if_neg hij, if_neg hij]

theorem stencilNorm_run (r n iterations : ℕ) (ts : List (ℤ × ℤ × ℚ))
    (hw : weightSum ts = 0) (hS : 0 ≤ slopeResponse ts) (hn : 2 * r + 1 ≤ n) :
    stencilNorm r n (stencilRun r ts n iterations).2
      = ((iterations : ℚ) + 1) * slopeResponse ts := by
  unfold stencilRun
  rw [stencilBody_iterate r ts (n : ℤ) hw (iterations + 1)]
  unfold stencilNorm
  have hval : (0 : ℚ) ≤ (((iterations + 1 : ℕ) : ℚ)) * slopeResponse ts := by
    have : (0 : ℚ) ≤ ((iterations + 1 : ℕ) : ℚ) := by positivity
    exact mul_nonneg this hS
  have hrow : ∀ i ∈ Finset.Ico (r : ℤ) ((n : ℤ) - r),
      (∑ j ∈ Finset.Ico (r : ℤ) ((n : ℤ) - r),
        |if interiorCell r (n : ℤ) i j
          then ((iterations + 1 : ℕ) : ℚ) * slopeResponse ts else 0|)
      = ((n - 2 * r : ℕ) : ℚ) * (((iterations + 1 : ℕ) : ℚ) * slopeResponse ts) := by
    intro i hi
    rw [Finset.mem_Ico] at hi
    have hterm : ∀ j ∈ Finset.Ico (r : ℤ) ((n : ℤ) - r),
        |if interiorCell r (n : ℤ) i j
          then ((iterations + 1 : ℕ) : ℚ) * slopeResponse ts else 0|
        = ((iterations + 1 : ℕ) : ℚ) * slopeResponse ts := by
      intro j hj
      rw [Finset.mem_Ico] at hj
      have : interiorCell r (n : ℤ) i j := ⟨hi.1, hi.2, hj.1, hj.2⟩
      rw [if_pos this, abs_of_nonneg hval]
    rw [Finset.sum_congr rfl hterm, Finset.sum_const, Int.card_Ico,
      nsmul_eq_mul]
    congr 1
    have : ((n : ℤ) - r - r).toNat = n - 2 * r := by omega
    rw [this]
  rw [Finset.sum_congr rfl hrow, Finset.sum_const, Int.card_Ico, nsmul_eq_mul]
  have hcard : ((n : ℤ) - r - r).toNat = n - 2 * r := by omega
  rw [hcard]
  unfold activePoints
  have hne : ((n - 2 * r : ℕ) : ℚ) ≠ 0 := by
    have : 1 ≤ n - 2 * r := by omega
    positivity
  push_cast
  field_simp
  ring

/-! ### C1: end-to-end star stencil validation -/

/-- C1 (amended): for every star radius r in 1..5, grid dimension n with
2r+1 ≤ n and iterations with 1 ≤ iterations and iterations+1 ≤ 6250, running
the stencil driver (in[i][j] = i+j, out = 0, then iterations+1 bodies of
kernel-then-+1-perturbation) leaves the interior average of |out| within
1e-8 (absolute) of 2*(iterations+1), so the verifier reports success and the
process exits 0.  The iteration cap is forced by the truncated decimal
weight literals: at radius 3 the response of one application to the
unit-slope input is 2 + 1.6e-12, so the deviation (iterations+1)*1.6e-12
crosses 1e-8 once iterations+1 > 6250. -/
theorem stencil_star_validates (r n iterations : ℕ)
    (hr1 : 1 ≤ r) (hr5 : r ≤ 5) (hn : 2 * r + 1 ≤ n)
    (hit : 1 ≤ iterations) (hcap : iterations + 1 ≤ 6250) :
    |stencilNorm r n (stencilRun r (starTerms r) n iterations).2 -
        referenceNorm iterations| ≤ 1e-8 ∧
      stencilExit r n iterations = 0 := by
  have hT1 : ((iterations : ℚ) + 1) ≤ 6250 := by exact_mod_cast hcap
  have key : |stencilNorm r n (stencilRun r (starTerms r) n iterations).2 -
      referenceNorm iterations| ≤ 1e-8 := by
    interval_cases r
    · rw [show starTerms 1 = star1Terms from rfl,
        stencilNorm_run 1 n iterations star1Terms weightSum_star1
          (by rw [slopeResponse_star1]; norm_num) hn, slopeResponse_star1]
      unfold referenceNorm
      rw [show ((iterations : ℚ) + 1) * 2 - 2 * ((iterations : ℚ) + 1) = 0 by ring]
      norm_num
    · rw [show starTerms 2 = star2Terms from rfl,
        stencilNorm_run 2 n iterations star2Terms weightSum_star2
          (by rw [slopeResponse_star2]; norm_num) hn, slopeResponse_star2]
      unfold referenceNorm
      rw [show ((iterations : ℚ) + 1) * 2 - 2 * ((iterations : ℚ) + 1) = 0 by ring]
      norm_num
    · rw [show starTerms 3 = star3Terms from rfl,
        stencilNorm_run 3 n iterations star3Terms weightSum_star3
          (by rw [slopeResponse_star3]; norm_num) hn, slopeResponse_star3]
      unfold referenceNorm
      rw [show ((iterations : ℚ) + 1) * (2 + 16 / 10 ^ 13) -
          2 * ((iterations : ℚ) + 1) = ((iterations : ℚ) + 1) * (16 / 10 ^ 13) by ring,
        abs_of_nonneg (by positivity)]
      calc ((iterations : ℚ) + 1) * (16 / 10 ^ 13)
          ≤ 6250 * (16 / 10 ^ 13) :=
            mul_le_mul_of_nonneg_right hT1 (by norm_num)
        _ ≤ 1e-8 := by norm_num
    · rw [show starTerms 4 = star4Terms from rfl,
        stencilNorm_run 4 n iterations star4Terms weightSum_star4
          (by rw [slopeResponse_star4]; norm_num) hn, slopeResponse_star4]
      unfold referenceNorm
      rw [show ((iterations : ℚ) + 1) * (2 + 4 / 10 ^ 13) -
          2 * ((iterations : ℚ) + 1) = ((iterations : ℚ) + 1) * (4 / 10 ^ 13) by ring,
        abs_of_nonneg (by positivity)]
      calc ((iterations : ℚ) + 1) * (4 / 10 ^ 13)
          ≤ 6250 * (4 / 10 ^ 13) :=
            mul_le_mul_of_nonneg_right hT1 (by norm_num)
        _ ≤ 1e-8 := by norm_num
    · rw [show starTerms 5 = star5Terms from rfl,
        stencilNorm_run 5 n iterations star5Terms weightSum_star5
          (by rw [slopeResponse_star5]; norm_num) hn, slopeResponse_star5]
      unfold referenceNorm
      rw [show ((iterations : ℚ) + 1) * (2 - 4 / 10 ^ 13) -
          2 * ((iterations : ℚ) + 1) = -(((iterations : ℚ) + 1) * (4 / 10 ^ 13)) by ring,
        abs_neg, abs_of_nonneg (by positivity)]
      calc ((iterations : ℚ) + 1) * (4 / 10 ^ 13)
          ≤ 6250 * (4 / 10 ^ 13) :=
            mul_le_mul_of_nonneg_right hT1 (by norm_num)
        _ ≤ 1e-8 := by norm_num
  refine ⟨key, ?_⟩
  unfold stencilExit
  rw [if_neg (not_lt.mpr key)]

/-- C1 witness: the spec's end-to-end scenario 2 (iterations=5, n=100, star,
radius=2) satisfies the hypotheses and validates. -/
theorem stencil_star_validates_witness :
    1 ≤ 2 ∧ 2 ≤ 5 ∧ 2 * 2 + 1 ≤ 100 ∧ 1 ≤ 5 ∧ 5 + 1 ≤ 6250 ∧
      (|stencilNorm 2 100 (stencilRun 2 (starTerms 2) 100 5).2 -
          referenceNorm 5| ≤ 1e-8 ∧
        stencilExit 2 100 5 = 0) :=
  ⟨by decide, by decide, by decide, by decide, by decide,
    stencil_star_validates 2 100 5 (by decide) (by decide) (by decide)
      (by decide) (by decide)⟩

/-- C1 counterexample: at radius 3, n = 7, iterations = 6250 (which the
claim as stated allows), the interior average differs from 2*(iterations+1)
by 6251 * 1.6e-12 ≈ 1.00016e-8 > 1e-8, and the process exits 1. -/
theorem stencil_star_validation_fails :
    1 ≤ (6250 : ℕ) ∧ 2 * 3 + 1 ≤ (7 : ℕ) ∧
      ¬ (|stencilNorm 3 7 (stencilRun 3 (starTerms 3) 7 6250).2 -
            referenceNorm 6250| ≤ 1e-8) ∧
      stencilExit 3 7 6250 = 1 := by
  have hnorm : stencilNorm 3 7 (stencilRun 3 (starTerms 3) 7 6250).2
      = ((6250 : ℚ) + 1) * (2 + 16 / 10 ^ 13) := by
    rw [show starTerms 3 = star3Terms from rfl,
      stencilNorm_run 3 7 6250 star3Terms weightSum_star3
        (by rw [slopeResponse_star3]; norm_num) (by norm_num),
      slopeResponse_star3]
    norm_num
  have hdev : ¬ (|stencilNorm 3 7 (stencilRun 3 (starTerms 3) 7 6250).2 -
      referenceNorm 6250| ≤ 1e-8) := by
    rw [hnorm]
    unfold referenceNorm
    rw [show ((6250 : ℚ) + 1) * (2 + 16 / 10 ^ 13) -
        2 * (((6250 : ℕ) : ℚ) + 1) = 100016 / 10 ^ 13 by push_cast; ring,
      abs_of_nonneg (by norm_num)]
    norm_num
  refine ⟨by norm_num, by norm_num, hdev, ?_⟩
  unfold stencilExit
  rw [if_pos (not_le.mp hdev)]

/-! ### C2: star weight magnitudes -/

/-- C2 (amended): for every star radius r in 1..5 and axis distance d in
1..r, the coefficient at offset d along a row or column has magnitude
1/(2*d*r) (within 1e-8 relative tolerance against the hand-written tables),
negative at offset -d (before the center) and positive at offset +d (after
the center). -/
theorem star_weight_rule (r d : ℕ)
    (hr1 : 1 ≤ r) (hr5 : r ≤ 5) (hd1 : 1 ≤ d) (hdr : d ≤ r) :
    weightAt (starTerms r) 0 (-(d : ℤ)) < 0 ∧
    weightAt (starTerms r) (-(d : ℤ)) 0 < 0 ∧
    0 < weightAt (starTerms r) 0 (d : ℤ) ∧
    0 < weightAt (starTerms r) (d : ℤ) 0 ∧
    |(-(weightAt (starTerms r) 0 (-(d : ℤ)))) - 1 / (2 * (d : ℚ) * (r : ℚ))| ≤
      1e-8 * (1 / (2 * (d : ℚ) * (r : ℚ))) ∧
    |(-(weightAt (starTerms r) (-(d : ℤ)) 0)) - 1 / (2 * (d : ℚ) * (r : ℚ))| ≤
      1e-8 * (1 / (2 * (d : ℚ) * (r : ℚ))) ∧
    |weightAt (starTerms r) 0 (d : ℤ) - 1 / (2 * (d : ℚ) * (r : ℚ))| ≤
      1e-8 * (1 / (2 * (d : ℚ) * (r : ℚ))) ∧
    |weightAt (starTerms r) (d : ℤ) 0 - 1 / (2 * (d : ℚ) * (r : ℚ))| ≤
      1e-8 * (1 / (2 * (d : ℚ) * (r : ℚ))) := by
  interval_cases r <;> interval_cases d <;>
    norm_num [weightAt, starTerms, star1Terms, star2Terms, star3Terms,
      star4Terms, star5Terms, List.filter, abs_sub_le_iff, abs_le]

/-- C2 witness: radius 2, distance 1 satisfies the hypotheses; the
coefficient after the center on the column axis is positive. -/
theorem star_weight_rule_witness :
    1 ≤ (2 : ℕ) ∧ (2 : ℕ) ≤ 5 ∧ 1 ≤ (1 : ℕ) ∧ (1 : ℕ) ≤ 2 ∧
      0 < weightAt (starTerms 2) ((1 : ℕ) : ℤ) 0 :=
  ⟨by decide, by decide, by decide, by decide,
    (star_weight_rule 2 1 (by decide) (by decide) (by decide)
      (by decide)).2.2.2.1⟩

/-- C2 counterexample: at radius 1, distance 1 the hand-written coefficient
is 0.5, which is not within 1e-8 relative of 1/(4*1*1) = 0.25 as the claim
states. -/
theorem star_weight_not_quarter :
    1 ≤ (1 : ℕ) ∧ (1 : ℕ) ≤ 5 ∧ 1 ≤ (1 : ℕ) ∧ (1 : ℕ) ≤ 1 ∧
      ¬ (|weightAt (starTerms 1) 0 ((1 : ℕ) : ℤ) -
            1 / (4 * ((1 : ℕ) : ℚ) * ((1 : ℕ) : ℚ))| ≤
          1e-8 * (1 / (4 * ((1 : ℕ) : ℚ) * ((1 : ℕ) : ℚ)))) := by
  have hw : weightAt (starTerms 1) 0 ((1 : ℕ) : ℤ) = 1 / 2 := by
    norm_num [weightAt, starTerms, star1Terms, List.filter]
  refine ⟨by norm_num, by norm_num, by norm_num, by norm_num, ?_⟩
  rw [hw, show |(1 : ℚ) / 2 - 1 / (4 * ((1 : ℕ) : ℚ) * ((1 : ℕ) : ℚ))| = 1 / 4 by
    rw [abs_of_pos] <;> norm_num]
  norm_num

/-! ### C5: weight tables sum to zero -/

/-- C5: for every radius 1..5 and both shapes, the weight table sums to
exactly 0; equivalently a constant input field adds exactly 0 to every
output cell. -/
theorem weight_table_sums_zero (r : ℕ) (hr1 : 1 ≤ r) (hr5 : r ≤ 5) :
    weightSum (starTerms r) = 0 ∧ weightSum (gridTerms r) = 0 ∧
      (∀ (c : ℚ) (i j : ℤ), applyTerms (starTerms r) (fun _ _ => c) i j = 0) ∧
      (∀ (c : ℚ) (i j : ℤ), applyTerms (gridTerms r) (fun _ _ => c) i j = 0) := by
  have hs : weightSum (starTerms r) = 0 := by
    interval_cases r
    exacts [weightSum_star1, weightSum_star2, weightSum_star3,
      weightSum_star4, weightSum_star5]
  have hg : weightSum (gridTerms r) = 0 := by
    interval_cases r
    exacts [weightSum_grid1, weightSum_grid2, weightSum_grid3,
      weightSum_grid4, weightSum_grid5]
  refine ⟨hs, hg, fun c i j => ?_, fun c i j => ?_⟩
  · rw [applyTerms_const, hs, mul_zero]
  · rw [applyTerms_const, hg, mul_zero]

/-- C5 witness: radius 2 satisfies the hypotheses and both tables sum to 0. -/
theorem weight_table_sums_zero_witness :
    1 ≤ (2 : ℕ) ∧ (2 : ℕ) ≤ 5 ∧ weightSum (starTerms 2) = 0 ∧
      weightSum (gridTerms 2) = 0 :=
  ⟨by decide, by decide,
    (weight_table_sums_zero 2 (by decide) (by decide)).1,
    (weight_table_sums_zero 2 (by decide) (by decide)).2.1⟩

/-! ### C7: unimplemented stencil configurations abort -/

/-- C7: every requested (shape, radius) pair without an implemented kernel
table — every box/grid request (the box kernels are compiled out), and any
star radius outside 1..5 — dispatches to the `nothing` handler, whose
invocation is the fatal "stencil does not exist" abort and never a silent
no-op. -/
theorem unimplemented_stencil_aborts (star : Bool) (radius : ℕ) (n : ℤ)
    (inG outG : Grid) (h : star = false ∨ radius < 1 ∨ 5 < radius) :
    selectStencil star radius = StencilKernel.nothing ∧
    runSelected (selectStencil star radius) n inG outG =
        StencilOutcome.aborted missingStencilMsg ∧
    ∀ g : Grid, runSelected (selectStencil star radius) n inG outG ≠
        StencilOutcome.ran g := by
  have hk : selectStencil star radius = StencilKernel.nothing := by
    rcases h with h | h
    · rw [h]; rfl
    · cases star with
      | false => rfl
      | true =>
          have h1 : radius ≠ 1 := by omega
          have h2 : radius ≠ 2 := by omega
          have h3 : radius ≠ 3 := by omega
          have h4 : radius ≠ 4 := by omega
          have h5 : radius ≠ 5 := by omega
          simp [selectStencil, h1, h2, h3, h4, h5]
  refine ⟨hk, ?_, ?_⟩
  · rw [hk]; rfl
  · intro g hg
    rw [hk] at hg
    exact StencilOutcome.noConfusion hg

/-- C7 witness: the spec's unsupported configuration, shape grid (box) with
radius 3, aborts with the diagnostic. -/
theorem unimplemented_stencil_aborts_witness :
    (false = false ∨ (3 : ℕ) < 1 ∨ 5 < (3 : ℕ)) ∧
      runSelected (selectStencil false 3) 10 stencilInit (fun _ _ => 0) =
        StencilOutcome.aborted missingStencilMsg :=
  ⟨Or.inl rfl,
    (unimplemented_stencil_aborts false 3 10 stencilInit (fun _ _ => 0)
      (Or.inl rfl)).2.1⟩

/-! ### C8: frame and accumulation behavior of one stencil invocation -/

/-- C8: repeated stencil invocations (with a fixed input grid) leave every
cell within `radius` of an edge unchanged, and add the weighted neighbor sum
into the existing value of every interior cell once per invocation, so the
output grows additively; the case k = 1 is the single-invocation contract. -/
theorem stencil_frame_accumulate (r : ℕ) (ts : List (ℤ × ℤ × ℚ)) (n : ℤ)
    (inG outG : Grid) (i j : ℤ) (k : ℕ) :
    (¬ interiorCell r n i j →
        (fun g => stencilStep r ts n inG g)^[k] outG i j = outG i j) ∧
    (interiorCell r n i j →
        (fun g => stencilStep r ts n inG g)^[k] outG i j
          = outG i j + (k : ℚ) * applyTerms ts inG i j) := by
  induction k with
  | zero => constructor <;> intro h <;> simp
  | succ k ih =>
      constructor <;> intro h <;> rw [Function.iterate_succ_apply']
      · show (if interiorCell r n i j then
            (fun g => stencilStep r ts n inG g)^[k] outG i j +
              applyTerms ts inG i j
          else (fun g => stencilStep r ts n inG g)^[k] outG i j) = outG i j
        rw [if_neg h, ih.1 h]
      · show (if interiorCell r n i j then
            (fun g => stencilStep r ts n inG g)^[k] outG i j +
              applyTerms ts inG i j
          else (fun g => stencilStep r ts n inG g)^[k] outG i j) = _
        rw [if_pos h, ih.2 h]
        push_cast
        ring

/-- C8 witness: cell (3,3) is interior for radius 2 on a 7×7 grid; two
invocations on an out grid filled with 5 add the weighted sum twice. -/
theorem stencil_frame_accumulate_witness :
    interiorCell 2 7 3 3 ∧
      (fun g => stencilStep 2 star2Terms 7 stencilInit g)^[2]
          (fun _ _ => (5 : ℚ)) 3 3
        = (fun _ _ => (5 : ℚ)) 3 3 +
            ((2 : ℕ) : ℚ) * applyTerms star2Terms stencilInit 3 3 :=
  ⟨by decide,
    (stencil_frame_accumulate 2 star2Terms 7 stencilInit (fun _ _ => (5 : ℚ))
      3 3 2).2 (by decide)⟩

/-! ### C9: triad grid_stride argument handling -/

/-- C9 (code evaluation): with exactly one optional argument after the
vector length (argc = 4) the driver parses `argv[4]`, one past the provided
argument list, yielding `none` instead of reading the provided third
positional argument; with only two positional arguments (argc = 3)
grid_stride defaults to false. -/
theorem gridStride_reads_past_args :
    readGridStride (fun _ => true) ["prog", "10", "1000", "1"] = none ∧
      readGridStride (fun _ => true) ["prog", "10", "1000"] = some false := by
  constructor <;> rfl

/-! ### C10: shape tokens other than "grid" select star -/

/-- C10: any shape argument other than exactly "grid" — for example "box",
"Star", or a misspelling — selects the star stencil; the token is never
rejected (the shape handling of stencil-dpcpp.cc lines 111-115 is a total
function with no error path). -/
theorem shape_other_than_grid_selects_star (s : String) (h : s ≠ "grid") :
    parseStar s = true ∧ parseStar "box" = true ∧ parseStar "Star" = true ∧
      parseStar "grid" = false := by
  refine ⟨?_, by rfl, by rfl, by rfl⟩
  unfold parseStar
  rw [if_neg h]

/-- C10 witness: the shape token "box" is not "grid" and selects star. -/
theorem shape_other_than_grid_selects_star_witness :
    ("box" : String) ≠ "grid" ∧ parseStar "box" = true :=
  ⟨by decide, (shape_other_than_grid_selects_star "box" (by decide)).1⟩

/-! ### Helper lemmas: triad kernels -/

theorem runUnits_append (step : ℕ → (ℕ → ℚ) → (ℕ → ℚ)) (l1 l2 : List ℕ)
    (A : ℕ → ℚ) :
    runUnits step (l1 ++ l2) A = runUnits step l2 (runUnits step l1 A) := by
  induction l1 generalizing A with
  | nil => rfl
  | cons g gs ih => simp [runUnits, ih]

theorem runUnits_direct (n : ℕ) (scalar : ℚ) (B C : ℕ → ℚ) (U : ℕ)
    (A : ℕ → ℚ) :
    runUnits (nstreamUnit n scalar B C) (List.range U) A
      = fun i => if i < n ∧ i < U then A i + (B i + scalar * C i) else A i := by
  induction U with
  | zero => funext i; simp [runUnits]
  | succ U ih =>
      rw [List.range_succ, runUnits_append, ih]
      show nstreamUnit n scalar B C U _ = _
      unfold nstreamUnit
      funext i
      by_cases hU : U < n
      · rw [if_pos hU]
        by_cases hi : i = U
        · subst hi
          rw [Function.update_same]
          dsimp only
          rw [if_neg (by omega : ¬(i < n ∧ i < i)),
            if_pos (⟨hU, by omega⟩ : i < n ∧ i < i + 1)]
        · rw [Function.update_noteq hi]
          by_cases hin : i < n ∧ i < U
          · rw [if_pos hin, if_pos ⟨hin.1, by omega⟩]
          · rw [if_neg hin, if_neg (by omega)]
      · by_cases hin : i < n ∧ i < U
        · rw [if_neg hU, if_pos hin, if_pos ⟨hin.1, by omega⟩]
        · rw [if_neg hU, if_neg hin, if_neg (by omega)]

theorem strideLoop_of_ge (n G : ℕ) (hG : 0 < G) (hGe : n ≤ G) (scalar : ℚ)
    (B C : ℕ → ℚ) (g : ℕ) (A : ℕ → ℚ) :
    strideLoop n G hG scalar B C g A = nstreamUnit n scalar B C g A := by
  unfold nstreamUnit
  rw [strideLoop]
  by_cases hg : g < n
  · rw [dif_pos hg, strideLoop, dif_neg (by omega : ¬ g + G < n), if_pos hg]
  · rw [dif_neg hg, if_neg hg]

theorem launchUnits_ge (n : ℕ) : n ≤ launchUnits n := by
  unfold launchUnits
  omega

/-! ### C4: grid-strided triad kernel is bit-identical to direct mapping -/

/-- C4: for every n > 0 and every scalar, one invocation of the grid-strided
`nstream2` launch (each unit processing indices g, g+stride, ... below n,
stride = total units) produces the same `A` as one invocation of the direct
`nstream` launch (one unit per element, units with id ≥ n doing nothing),
given identical inputs: both per-element updates are the same expression
`A[i] + (B[i] + scalar*C[i])`, so the outputs agree exactly. -/
theorem nstream2_bit_identical (n : ℕ) (hn : 0 < n) (h : 0 < launchUnits n)
    (scalar : ℚ) (A B C : ℕ → ℚ) :
    nstream2Launch n h scalar B C A = nstreamLaunch n scalar B C A := by
  unfold nstream2Launch nstreamLaunch
  have key : ∀ (l : List ℕ) (A : ℕ → ℚ),
      runUnits (fun g => strideLoop n (launchUnits n) h scalar B C g) l A
        = runUnits (nstreamUnit n scalar B C) l A := by
    intro l
    induction l with
    | nil => intro A; rfl
    | cons g gs ih =>
        intro A
        simp only [runUnits]
        rw [strideLoop_of_ge n (launchUnits n) h (launchUnits_ge n), ih]
  exact key _ A

/-- C4 witness: n = 3 with scalar 3 and the driver's initial fills. -/
theorem nstream2_bit_identical_witness :
    0 < (3 : ℕ) ∧
      nstream2Launch 3 (by decide) 3 (fun _ => (2 : ℚ)) (fun _ => (2 : ℚ))
          (fun _ => (0 : ℚ))
        = nstreamLaunch 3 3 (fun _ => (2 : ℚ)) (fun _ => (2 : ℚ))
            (fun _ => (0 : ℚ)) :=
  ⟨by decide,
    nstream2_bit_identical 3 (by decide) (by decide) 3 (fun _ => (0 : ℚ))
      (fun _ => (2 : ℚ)) (fun _ => (2 : ℚ))⟩

/-! ### Helper lemmas: the triad driver loop in closed form -/

theorem nstreamLaunch_apply (n : ℕ) (scalar : ℚ) (B C A : ℕ → ℚ) :
    nstreamLaunch n scalar B C A
      = fun i => if i < n then A i + (B i + scalar * C i) else A i := by
  unfold nstreamLaunch
  rw [runUnits_direct]
  funext i
  have hle := launchUnits_ge n
  by_cases hi : i < n
  · rw [if_pos ⟨hi, by omega⟩, if_pos hi]
  · rw [if_neg (by tauto), if_neg hi]

theorem nstream_iterate (length k : ℕ) :
    (fun A => nstreamLaunch length 3 (fun _ => 2) (fun _ => 2) A)^[k]
        (fun _ => 0)
      = fun i => if i < length then (k : ℚ) * 8 else 0 := by
  induction k with
  | zero => funext i; simp
  | succ k ih =>
      rw [Function.iterate_succ_apply', ih, nstreamLaunch_apply]
      funext i
      by_cases hi : i < length
      · rw [if_pos hi, if_pos hi, if_pos hi]
        push_cast
        ring
      · rw [if_neg hi, if_neg hi, if_neg hi]

theorem foldl_add_const (l : List ℕ) (c x : ℚ) :
    l.foldl (fun a _ => a + c) x = x + l.length * c := by
  induction l generalizing x with
  | nil => simp
  | cons y l ih =>
      simp only [List.foldl_cons, List.length_cons, ih]
      push_cast
      ring

theorem nstreamAr_closed (iterations length : ℕ) :
    nstreamAr iterations length = ((iterations : ℚ) + 1) * 8 * (length : ℚ) := by
  unfold nstreamAr
  rw [foldl_add_const]
  simp only [List.length_range]
  push_cast
  ring

theorem nstreamAsum_closed (iterations length : ℕ) :
    nstreamAsum iterations length
      = (length : ℚ) * (((iterations : ℚ) + 1) * 8) := by
  unfold nstreamAsum nstreamRunA
  rw [nstream_iterate length (iterations + 1)]
  have hterm : ∀ i ∈ Finset.range length,
      |if i < length then ((iterations + 1 : ℕ) : ℚ) * 8 else 0|
        = ((iterations : ℚ) + 1) * 8 := by
    intro i hi
    rw [Finset.mem_range] at hi
    rw [if_pos hi, abs_of_nonneg (by positivity)]
    push_cast
    ring
  rw [Finset.sum_congr rfl hterm, Finset.sum_const, Finset.card_range,
    nsmul_eq_mul]

/-! ### C3: triad verifier -/

/-- C3: for every iterations ≥ 1 and length ≥ 1 with scalar 3, A = 0 and
B = C = 2 initially, the expected checksum equals
length * Σ_{k=0}^{iterations} (2 + 3*2), the observed value is the sum of
absolute values of the final A, validation passes (exit 0) iff
|expected - observed|/observed ≤ 1e-8, validation does pass, and
iterations = 10, length = 1000 gives expected checksum 88000. -/
theorem triad_verifier (iterations length : ℕ)
    (hit : 1 ≤ iterations) (hlen : 1 ≤ length) :
    nstreamAr iterations length
        = (length : ℚ) * ∑ _k ∈ Finset.range (iterations + 1), ((2 : ℚ) + 3 * 2) ∧
      (nstreamExit iterations length = 0 ↔
        |nstreamAr iterations length - nstreamAsum iterations length| /
            nstreamAsum iterations length ≤ 1e-8) ∧
      nstreamExit iterations length = 0 ∧
      nstreamAr 10 1000 = 88000 := by
  have har := nstreamAr_closed iterations length
  have hasum := nstreamAsum_closed iterations length
  have hzero : |nstreamAr iterations length - nstreamAsum iterations length| = 0 := by
    rw [har, hasum,
      show ((iterations : ℚ) + 1) * 8 * (length : ℚ) -
          (length : ℚ) * (((iterations : ℚ) + 1) * 8) = 0 by ring,
      abs_zero]
  have hexit : nstreamExit iterations length = 0 := by
    unfold nstreamExit
    rw [if_neg]
    rw [hzero, zero_div]
    norm_num
  refine ⟨?_, ?_, hexit, ?_⟩
  · rw [har, Finset.sum_const, Finset.card_range, nsmul_eq_mul]
    push_cast
    ring
  · constructor
    · intro _
      rw [hzero, zero_div]
      norm_num
    · intro _
      exact hexit
  · rw [nstreamAr_closed 10 1000]
    norm_num

/-- C3 witness: the spec's end-to-end scenario 1, iterations = 10,
length = 1000. -/
theorem triad_verifier_witness :
    1 ≤ (10 : ℕ) ∧ 1 ≤ (1000 : ℕ) ∧ nstreamExit 10 1000 = 0 :=
  ⟨by decide, by decide,
    (triad_verifier 10 1000 (by decide) (by decide)).2.2.1⟩

/-! ### C6: loop structure and reported average time -/

theorem stencilBodyCounted_iterate_counts (r : ℕ) (ts : List (ℤ × ℤ × ℚ))
    (n : ℤ) (k : ℕ) :
    ((stencilBodyCounted r ts n)^[k]
        ⟨stencilInit, fun _ _ => 0, 0, 0⟩).kernelCalls = k ∧
    ((stencilBodyCounted r ts n)^[k]
        ⟨stencilInit, fun _ _ => 0, 0, 0⟩).perturbCalls = k ∧
    ((stencilBodyCounted r ts n)^[k]
        ⟨stencilInit, fun _ _ => 0, 0, 0⟩).inG
      = ((stencilBody r ts n)^[k] (stencilInit, fun _ _ => 0)).1 ∧
    ((stencilBodyCounted r ts n)^[k]
        ⟨stencilInit, fun _ _ => 0, 0, 0⟩).outG
      = ((stencilBody r ts n)^[k] (stencilInit, fun _ _ => 0)).2 := by
  induction k with
  | zero => exact ⟨rfl, rfl, rfl, rfl⟩
  | succ k ih =>
      rw [Function.iterate_succ_apply', Function.iterate_succ_apply']
      refine ⟨?_, ?_, ?_, ?_⟩
      · show ((stencilBodyCounted r ts n)^[k] _).kernelCalls + 1 = k + 1
        rw [ih.1]
      · show ((stencilBodyCounted r ts n)^[k] _).perturbCalls + 1 = k + 1
        rw [ih.2.1]
      · show (fun i j => ((stencilBodyCounted r ts n)^[k] _).inG i j + 1) = _
        rw [ih.2.2.1]
        rfl
      · show stencilStep r ts n _ _ = _
        rw [ih.2.2.1, ih.2.2.2]
        rfl

/-- C6: the driver loop executes exactly iterations+1 bodies (iter =
0..iterations); each body performs exactly one kernel application (reading
the pre-perturbation input) followed by exactly one +1 perturbation of
every input cell, warm-up body included; and the reported average time is
the elapsed time spanning only bodies 1..iterations divided by iterations
(body durations modelled by `dur`). -/
theorem driver_loop_structure (r : ℕ) (ts : List (ℤ × ℤ × ℚ))
    (n iterations : ℕ) (dur : ℕ → ℚ) (hit : 1 ≤ iterations) :
    (stencilRunCounted r ts n iterations).kernelCalls = iterations + 1 ∧
    (stencilRunCounted r ts n iterations).perturbCalls = iterations + 1 ∧
    (stencilRunCounted r ts n iterations).inG
        = (stencilRun r ts n iterations).1 ∧
    (stencilRunCounted r ts n iterations).outG
        = (stencilRun r ts n iterations).2 ∧
    stencilAvgTime dur iterations
        = (∑ k ∈ Finset.Icc 1 iterations, dur k) / (iterations : ℚ) := by
  obtain ⟨h1, h2, h3, h4⟩ :=
    stencilBodyCounted_iterate_counts r ts (n : ℤ) (iterations + 1)
  refine ⟨h1, h2, h3, h4, ?_⟩
  unfold stencilAvgTime stencilElapsed
  rw [Finset.range_eq_Ico,
    ← Finset.sum_Ico_consecutive dur (by omega : 0 ≤ 1)
      (by omega : 1 ≤ iterations + 1),
    ← Nat.Ico_succ_right]
  ring

/-- C6 witness: radius 2 star table, n = 7, iterations = 2, unit body
durations. -/
theorem driver_loop_structure_witness :
    1 ≤ (2 : ℕ) ∧ (stencilRunCounted 2 star2Terms 7 2).kernelCalls = 2 + 1 :=
  ⟨by decide,
    (driver_loop_structure 2 star2Terms 7 2 (fun _ => 1) (by decide)).1⟩

end PRK
